import Mathlib

/-!
Shallow embedding of the RAG orchestration pipeline of the
Field-Cognitive-Assistant repository, from
src/app/services/rag_pipeline.py (class RAGPipeline: rag_answer,
rag_answer_stream) and src/app/services/azure_openai_client.py
(class AzureOpenAIClient: generate_response, generate_response_stream),
together with theorems checking the specification against it.

Modelling conventions:
- Python strings are lists of characters (`Str`).
- The external Azure backends (chat.completions.create, blocking and
  streaming) are explicit function parameters; a raised Python exception
  is an `Except.error` (or an explicit outcome constructor) carrying the
  exception message, i.e. str(e).
- Each gateway function also returns the list of backend calls it made,
  recording for each call whether the temperature parameter was included.
- Relevance scores (Python floats that are only ever passed through,
  never computed with) are embedded as rationals.
-/

abbrev Str : Type := List Char

deriving instance DecidableEq for Except

/-- Python substring test `pat in s`: `pat` is a prefix of some suffix. -/
def hasSubstr (pat : Str) : Str → Bool
  | [] => pat.isEmpty
  | c :: rest => pat.isPrefixOf (c :: rest) || hasSubstr pat rest

/-- Python `s.lower()`; every substring the code searches for is ASCII. -/
def lowerStr (s : Str) : Str := s.map Char.toLower

/-- ASCII whitespace recognised by Python str.strip. -/
def isPySpace (c : Char) : Bool :=
  c == ' ' || c == '\t' || c == '\n' || c == '\r' ||
    c == Char.ofNat 11 || c == Char.ofNat 12

/-- Python `s.strip()`. -/
def pyStrip (s : Str) : Str :=
  ((s.dropWhile isPySpace).reverse.dropWhile isPySpace).reverse

/-- A retrieved document as consumed by `rag_answer`: a Python dict whose
fields may be absent; the `doc.get` defaults of the source are applied at
each use site. -/
structure Document where
  content : Option Str
  source : Option Str
  path : Option Str
  score : Option Rat
  deriving DecidableEq

/-- One entry of the sources list attached to an answer
(rag_pipeline.py lines 130-140). -/
structure SourceInfo where
  source : Str
  score : Rat
  path : Option Str
  deriving DecidableEq

/-- The result dict of `rag_answer`. -/
structure AnswerResult where
  answer : Str
  sources : List SourceInfo
  deriving DecidableEq

/-- rag_pipeline.py line 78 / 197. -/
def MAX_CHARS_PER_CHUNK : Nat := 4000

/-- rag_pipeline.py line 79 / 198. -/
def MAX_TOTAL_CONTEXT : Nat := 12000

/-- The marker inserted between head and tail of an over-long chunk
(rag_pipeline.py line 94 / 210). -/
def midMarker : Str := "... [texto truncado] ...".toList

/-- The marker appended after a hard-truncated first chunk
(rag_pipeline.py line 103 / 216). -/
def endMarker : Str := "... [texto truncado]".toList

/-- rag_pipeline.py lines 91-94 / 208-210: per-fragment truncation of an
over-long content, keeping its head and tail around `midMarker`.
Python `content[:half]` is `take half`, `content[-half:]` is
`drop (length - half)`. -/
def truncateChunk (content : Str) : Str :=
  if content.length > MAX_CHARS_PER_CHUNK then
    let half := MAX_CHARS_PER_CHUNK / 2
    content.take half ++ midMarker ++ content.drop (content.length - half)
  else content

/-- rag_pipeline.py lines 84-108 (and the textually identical loop at
lines 203-221 of `rag_answer_stream`): the context-budgeting loop over
the ranked documents. State: accepted chunks, running character total.
The third component of the result records whether the hard-truncation
branch of line 103 / 216 was taken. -/
def budgetLoop : List Document → List Str → Nat → List Str × Nat × Bool
  | [], context_chunks, total_chars => (context_chunks, total_chars, false)
  | doc :: rest, context_chunks, total_chars =>
    let content := doc.content.getD []
    if content.isEmpty then
      budgetLoop rest context_chunks total_chars
    else
      let content := truncateChunk content
      let chunk_size := content.length
      if total_chars + chunk_size > MAX_TOTAL_CONTEXT then
        if !context_chunks.isEmpty then
          (context_chunks, total_chars, false)
        else
          (context_chunks ++ [content.take MAX_TOTAL_CONTEXT ++ endMarker],
            total_chars, true)
      else
        budgetLoop rest (context_chunks ++ [content]) (total_chars + chunk_size)

/-- The fragment list produced by the context-budgeting step. -/
def contextChunks (docs : List Document) : List Str :=
  (budgetLoop docs [] 0).1

/-- Whether the hard-truncation branch fired for the given input. -/
def hardBranchTaken (docs : List Document) : Bool :=
  (budgetLoop docs [] 0).2.2

/-- The candidate fragment of every document, in rank order: documents
with empty content are skipped, over-long contents are truncated. The
budgeting loop accepts a prefix of this list. -/
def fragsAll (docs : List Document) : List Str :=
  docs.filterMap fun doc =>
    let c := doc.content.getD []
    if c.isEmpty then none else some (truncateChunk c)

/-- Combined character count of a fragment list. -/
def sumLen (l : List Str) : Nat := (l.map List.length).sum

/-- rag_pipeline.py lines 130-140 / 242-250: the sources entry built from
one retrieved document. -/
def mkSource (doc : Document) : SourceInfo :=
  { source := doc.source.getD "Unknown".toList
    score := doc.score.getD 0
    path := doc.path }

/-- rag_pipeline.py line 72 / 193: the fixed no-results answer. -/
def noResultsMsg : Str :=
  "No se encontró información relevante en los manuales para responder tu pregunta. Por favor, intenta reformularla o usar términos más específicos.".toList

/-- rag_pipeline.py line 114 / 226: Python repr of the first three scores.
Scores are embedded as rationals, so the digits are rendered through the
rational repr; no claim depends on this text. -/
def scoresText (docs : List Document) : Str :=
  "[".toList ++
    List.intercalate ", ".toList
      ((docs.take 3).map fun doc => (toString (doc.score.getD 0)).toList) ++
    "]".toList

/-- rag_pipeline.py lines 110-118 / 223-228: the diagnostic answer when
the budgeter produced no fragments. -/
def noUsableAnswer (docs : List Document) : Str :=
  let debug_info := "Se encontraron ".toList ++ (toString docs.length).toList ++
    " documentos pero no contenían texto útil.".toList
  let debug_info := if docs.isEmpty then debug_info
    else debug_info ++ " Scores: ".toList ++ scoresText docs
  debug_info ++ " Por favor, intenta otra pregunta o reformula con términos más específicos.".toList

/-- rag_pipeline.py lines 30-40: the constant system instruction handed
to the generation gateway. Only passed through to the backend; no claim
inspects its text. -/
def systemPrompt : Str :=
  "Eres un asistente especializado para field engineers de dispositivos biomédicos. \nTu función es ayudar a los técnicos a encontrar información en los manuales técnicos y de usuario.\n\nINSTRUCCIONES:\n- Usa la información proporcionada en el contexto de los manuales para responder la pregunta.\n- Si encuentras información relevante en el contexto, aunque sea parcial, proporciona una respuesta basada en esa información.\n- Si el contexto menciona algo relacionado con la pregunta, aunque no sea una respuesta completa, comparte esa información.\n- Proporciona respuestas claras, concisas y técnicas.\n- Si mencionas procedimientos, sé específico sobre los pasos.\n- Si hay información sobre modelos o números de parte, inclúyela en tu respuesta.\n- Solo di \"No encontré información suficiente\" si realmente no hay NADA relacionado con la pregunta en el contexto.".toList

/-- azure_openai_client.py lines 49-52 / 145-148: the numbered fragment
block of the grounded prompt. -/
def buildContextText (context_chunks : List Str) : Str :=
  List.intercalate "\n\n".toList
    (context_chunks.enum.map fun p =>
      "[Fragmento ".toList ++ (toString (p.1 + 1)).toList ++ "]\n".toList ++ p.2)

/-- azure_openai_client.py lines 55-63 / 151-159: the grounded user
prompt wrapping the fragment block and the question. -/
def buildUserPrompt (user_message : Str) (context_chunks : List Str) : Str :=
  "Contexto de los manuales técnicos:\n\n".toList ++
    buildContextText context_chunks ++
    "\n\n---\n\nPregunta del usuario: ".toList ++ user_message ++
    "\n\nBasándote en el contexto proporcionado, responde la pregunta del usuario. Si encuentras información relevante, aunque sea parcial, compártela. Si el contexto menciona algo relacionado con la pregunta, inclúyelo en tu respuesta.".toList

/-- azure_openai_client.py lines 79-82 / 175-177: the temperature
parameter is added to the call only when it differs from 1.0. -/
def includeTemp (temperature : Rat) : Bool := decide (temperature ≠ 1)

/-- azure_openai_client.py line 90 / 185: detection of the
unsupported-temperature rejection on the raised message. -/
def tempUnsupported (e : Str) : Bool :=
  hasSubstr "temperature".toList (lowerStr e) &&
    hasSubstr "unsupported".toList (lowerStr e)

/-- azure_openai_client.py line 109 / 203: detection of rate-limit
errors on the raised message. -/
def is429 (e : Str) : Bool :=
  hasSubstr "429".toList e || hasSubstr "RateLimitReached".toList e ||
    hasSubstr "rate limit".toList (lowerStr e)

/-- azure_openai_client.py lines 110-114: the message of the exception
re-raised on a rate-limit error. -/
def rateLimitRaiseMsg : Str :=
  "Límite de tasa alcanzado: Has excedido el límite de tokens por minuto de tu plan de Azure OpenAI. Por favor, espera 60 segundos antes de intentar de nuevo. Para aumentar el límite, visita: https://aka.ms/oai/quotaincrease".toList

/-- azure_openai_client.py lines 104-122: classification of a backend
exception into the message of the exception re-raised by
generate_response. -/
def classifyError (e : Str) : Str :=
  if is429 e then rateLimitRaiseMsg
  else if hasSubstr "400".toList e then "Error de solicitud: ".toList ++ e
  else "Error al generar respuesta con Azure OpenAI: ".toList ++ e

/-- azure_openai_client.py lines 99-102: extraction of the answer text
from the response choices (first choice stripped, or the fixed fallback
when there are no choices). -/
def extractAnswer : List Str → Str
  | [] => "No se pudo generar una respuesta.".toList
  | c :: _ => pyStrip c

/-- azure_openai_client.py lines 27-122, generate_response. The blocking
backend (chat.completions.create) is a parameter taking the system
prompt, the assembled user prompt and whether the temperature parameter
is included, and returning either the choice contents or a raised
message. Result: the returned answer or the re-raised classified
message, plus the trace of backend calls (the flag of each call). -/
def generate_response (backend : Str → Str → Bool → Except Str (List Str))
    (system_prompt user_message : Str) (context_chunks : List Str)
    (temperature : Rat) : Except Str Str × List Bool :=
  let prompt := buildUserPrompt user_message context_chunks
  let withTemp := includeTemp temperature
  match backend system_prompt prompt withTemp with
  | .ok choices => (.ok (extractAnswer choices), [withTemp])
  | .error e =>
    if tempUnsupported e then
      match backend system_prompt prompt false with
      | .ok choices => (.ok (extractAnswer choices), [withTemp, false])
      | .error e2 => (.error (classifyError e2), [withTemp, false])
    else (.error (classifyError e), [withTemp])

/-- One raw chunk of the backend stream: the choices list, each choice
carrying an optional delta with an optional content
(azure_openai_client.py lines 192-196). -/
abbrev RawChunk : Type := List (Option (Option Str))

/-- azure_openai_client.py lines 192-196: the text a raw chunk yields,
if any: first choice present, delta truthy, content truthy (a present
but empty content is falsy in Python and yields nothing). -/
def chunkYield (c : RawChunk) : Option Str :=
  match c.head? with
  | some (some (some t)) => if t.isEmpty then none else some t
  | _ => none

/-- The chunk texts yielded from a delivered raw stream. -/
def streamYields (cs : List RawChunk) : List Str := cs.filterMap chunkYield

/-- Outcome of one call to the streaming backend: the create call raised
`e`, or it delivered raw chunks `cs` and then either finished cleanly
(`err = none`) or raised mid-stream (`err = some e`). -/
inductive StreamOutcome : Type where
  | fail (e : Str)
  | delivered (cs : List RawChunk) (err : Option Str)
  deriving DecidableEq

/-- azure_openai_client.py lines 198-212: the in-band diagnostic chunk
yielded when the streaming path catches an exception. -/
def streamErrChunk (e : Str) : Str :=
  if is429 e then
    "\n\n⚠️ **Límite de tasa alcanzado**: Has excedido el límite de tokens por minuto. Espera 60 segundos antes de intentar de nuevo.".toList
  else if hasSubstr "400".toList e then
    "\n\n❌ **Error de solicitud**: ".toList ++ e
  else "\n\n❌ **Error**: ".toList ++ e

/-- The trailing diagnostic chunks after a delivered stream: none on
clean termination, the classified diagnostic on a mid-stream raise. -/
def streamTail : Option Str → List Str
  | none => []
  | some e => [streamErrChunk e]

/-- azure_openai_client.py lines 124-212, generate_response_stream.
Result: the full yielded chunk sequence, plus the trace of backend
calls. A mid-stream raise is caught by the outer handler and turned into
a final diagnostic chunk; a raise at create time with the
unsupported-temperature shape is retried once without the parameter. -/
def generate_response_stream (backendStream : Str → Str → Bool → StreamOutcome)
    (system_prompt user_message : Str) (context_chunks : List Str)
    (temperature : Rat) : List Str × List Bool :=
  let prompt := buildUserPrompt user_message context_chunks
  let withTemp := includeTemp temperature
  match backendStream system_prompt prompt withTemp with
  | .fail e =>
    if tempUnsupported e then
      match backendStream system_prompt prompt false with
      | .fail e2 => ([streamErrChunk e2], [withTemp, false])
      | .delivered cs err => (streamYields cs ++ streamTail err, [withTemp, false])
    else ([streamErrChunk e], [withTemp])
  | .delivered cs err => (streamYields cs ++ streamTail err, [withTemp])

/-- rag_pipeline.py line 152 / 256: recognition of a rate-limit message
in the caught exception. -/
def isRateLimitMsg (msg : Str) : Bool :=
  hasSubstr "Límite de tasa alcanzado".toList msg ||
    hasSubstr "rate limit".toList (lowerStr msg)

/-- rag_pipeline.py line 154: the blocking rate-limit answer. -/
def rateLimitAnswer (msg : Str) : Str :=
  "⚠️ **Límite de tasa alcanzado**\n\n".toList ++ msg ++
    "\n\nPor favor, espera un momento antes de hacer otra pregunta.".toList

/-- rag_pipeline.py line 160: the blocking generic error answer. -/
def genericErrorAnswer (msg : Str) : Str :=
  "❌ **Error al procesar tu pregunta**\n\n".toList ++ msg ++
    "\n\nPor favor, intenta de nuevo o verifica tu configuración de Azure.".toList

/-- rag_pipeline.py lines 42-162, rag_answer. The search is modelled as
already performed: `search_results` is the document list it returned
(search faults, handled by the same except block, are outside the
claims). The second component is the trace of generation-backend calls
made during the invocation. -/
def rag_answer (search_results : List Document)
    (backend : Str → Str → Bool → Except Str (List Str))
    (temperature : Rat) (user_question : Str) : AnswerResult × List Bool :=
  if search_results.isEmpty then
    ({ answer := noResultsMsg, sources := [] }, [])
  else
    let context_chunks := contextChunks search_results
    if context_chunks.isEmpty then
      ({ answer := noUsableAnswer search_results, sources := [] }, [])
    else
      match generate_response backend systemPrompt user_question context_chunks temperature with
      | (.ok answer, tr) =>
        ({ answer := answer, sources := search_results.map mkSource }, tr)
      | (.error msg, tr) =>
        if isRateLimitMsg msg then
          ({ answer := rateLimitAnswer msg, sources := [] }, tr)
        else
          ({ answer := genericErrorAnswer msg, sources := [] }, tr)

/-- rag_pipeline.py lines 164-260, rag_answer_stream. Result: the full
yielded chunk sequence and the sources list of the returned dict.
generate_response_stream never raises (its handler yields in-band), so
the except block of rag_answer_stream is reachable only through search
faults, which are outside the claims. -/
def rag_answer_stream (search_results : List Document)
    (backendStream : Str → Str → Bool → StreamOutcome)
    (temperature : Rat) (user_question : Str) : List Str × List SourceInfo :=
  if search_results.isEmpty then
    ([noResultsMsg], [])
  else
    let context_chunks := contextChunks search_results
    if context_chunks.isEmpty then
      ([noUsableAnswer search_results], [])
    else
      ((generate_response_stream backendStream systemPrompt user_question
          context_chunks temperature).1,
        search_results.map mkSource)

/-- A wait-this-long guidance phrase common to the blocking rate-limit
message (azure_openai_client.py line 112, re-surfaced by rag_pipeline.py
line 154) and the streaming rate-limit diagnostic chunk (line 204). -/
def guidancePhrase : Str := "60 segundos".toList

/-- Concrete documents and backends used by witnesses and
counterexamples below. -/
def docW : Document :=
  ⟨some "abc".toList, some "m.pdf".toList, some "p1".toList, some 2⟩

def docW2 : Document := ⟨some "def".toList, none, none, none⟩

def docWEmpty : Document := ⟨some [], some "a.pdf".toList, none, some 1⟩

def backendOk : Str → Str → Bool → Except Str (List Str) :=
  fun _ _ _ => .ok ["ans".toList]

def errTempMsg : Str := "Unsupported value: temperature".toList

def backendW7 : Str → Str → Bool → Except Str (List Str) :=
  fun _ _ withTemp => if withTemp then .error errTempMsg else .ok ["hi".toList]

def streamW7 : Str → Str → Bool → StreamOutcome :=
  fun _ _ withTemp =>
    if withTemp then .fail errTempMsg
    else .delivered [[some (some "hi".toList)]] none

def backend429 : Str → Str → Bool → Except Str (List Str) :=
  fun _ _ _ => .error "429".toList

def stream429 : Str → Str → Bool → StreamOutcome :=
  fun _ _ _ => .fail "429".toList

def backendWS : Str → Str → Bool → Except Str (List Str) :=
  fun _ _ _ => .ok [" hi ".toList]

def streamWS : Str → Str → Bool → StreamOutcome :=
  fun _ _ _ => .delivered [[some (some " hi ".toList)]] none

theorem midMarker_length : midMarker.length = 24 := by decide

theorem endMarker_length : endMarker.length = 20 := by decide

theorem sumLen_nil : sumLen [] = 0 := rfl

theorem sumLen_append (a b : List Str) : sumLen (a ++ b) = sumLen a + sumLen b := by
  simp [sumLen]

theorem sumLen_singleton (c : Str) : sumLen [c] = c.length := by
  simp [sumLen]

/-- Every candidate fragment fits in the per-fragment cap plus the
truncation marker. -/
theorem truncateChunk_length_le (c : Str) :
    (truncateChunk c).length ≤ MAX_CHARS_PER_CHUNK + midMarker.length := by
  rw [truncateChunk]
  split
  next h =>
    simp only [List.length_append, List.length_take, List.length_drop,
      midMarker_length]
    simp only [MAX_CHARS_PER_CHUNK] at h ⊢
    omega
  next h =>
    simp only [MAX_CHARS_PER_CHUNK, midMarker_length] at h ⊢
    omega

/-- An over-long content truncates to exactly head + marker + tail. -/
theorem truncateChunk_length_eq (c : Str) (h : c.length > MAX_CHARS_PER_CHUNK) :
    (truncateChunk c).length = 2000 + midMarker.length + 2000 := by
  rw [truncateChunk, if_pos h]
  simp only [List.length_append, List.length_take, List.length_drop,
    midMarker_length]
  simp only [MAX_CHARS_PER_CHUNK] at h ⊢
  omega

theorem fragsAll_cons_empty (doc : Document) (rest : List Document)
    (h : (doc.content.getD []).isEmpty = true) :
    fragsAll (doc :: rest) = fragsAll rest := by
  have h' : doc.content.getD [] = [] := List.isEmpty_iff.mp h
  simp [fragsAll, h']

theorem fragsAll_cons_nonempty (doc : Document) (rest : List Document)
    (h : (doc.content.getD []).isEmpty = false) :
    fragsAll (doc :: rest) =
      truncateChunk (doc.content.getD []) :: fragsAll rest := by
  have h' : doc.content.getD [] ≠ [] := by
    intro hh
    rw [hh] at h
    simp at h
  simp [fragsAll, h']

/-- Every member of the candidate fragment list obeys the per-fragment
bound. -/
theorem fragsAll_length_le (docs : List Document) :
    ∀ f ∈ fragsAll docs, f.length ≤ MAX_CHARS_PER_CHUNK + midMarker.length := by
  intro f hf
  simp only [fragsAll, List.mem_filterMap] at hf
  obtain ⟨doc, _, hdoc⟩ := hf
  split at hdoc
  · exact absurd hdoc (by simp)
  · have hf' := Option.some.inj hdoc
    exact hf' ▸ truncateChunk_length_le _

/-- Master invariant of the budgeting loop: starting from a state whose
running total is the combined length of the accepted chunks and within
budget, the loop never takes the hard-truncation branch, keeps the total
equal to the combined length and within budget, and appends a prefix of
the candidate fragment list. -/
theorem budgetLoop_master (docs : List Document) :
    ∀ (chunks : List Str) (total : Nat),
      total = sumLen chunks → total ≤ MAX_TOTAL_CONTEXT →
      (budgetLoop docs chunks total).2.2 = false ∧
      (budgetLoop docs chunks total).2.1 = sumLen (budgetLoop docs chunks total).1 ∧
      sumLen (budgetLoop docs chunks total).1 ≤ MAX_TOTAL_CONTEXT ∧
      ∃ k, (budgetLoop docs chunks total).1 = chunks ++ (fragsAll docs).take k := by
  induction docs with
  | nil =>
    intro chunks total h1 h2
    refine ⟨rfl, h1, h1 ▸ h2, 0, ?_⟩
    rw [budgetLoop]
    simp
  | cons doc rest ih =>
    intro chunks total h1 h2
    by_cases hc : (doc.content.getD []).isEmpty
    · have hred : budgetLoop (doc :: rest) chunks total =
          budgetLoop rest chunks total := by
        rw [budgetLoop]
        simp only [hc, if_true]
      rw [hred, fragsAll_cons_empty doc rest hc]
      exact ih chunks total h1 h2
    · simp only [Bool.not_eq_true] at hc
      by_cases hb : total + (truncateChunk (doc.content.getD [])).length >
          MAX_TOTAL_CONTEXT
      · by_cases he : chunks.isEmpty
        · exfalso
          have h0 : total = 0 := by
            rw [h1, List.isEmpty_iff.mp he, sumLen_nil]
          have hle := truncateChunk_length_le (doc.content.getD [])
          rw [midMarker_length] at hle
          simp only [MAX_CHARS_PER_CHUNK] at hle
          simp only [MAX_TOTAL_CONTEXT] at hb
          omega
        · have he' : chunks.isEmpty = false := by
            simpa using he
          have hred : budgetLoop (doc :: rest) chunks total =
              (chunks, total, false) := by
            rw [budgetLoop]
            simp [hc, hb, he']
          rw [hred]
          refine ⟨rfl, h1, h1 ▸ h2, 0, ?_⟩
          simp
      · have hred : budgetLoop (doc :: rest) chunks total =
            budgetLoop rest (chunks ++ [truncateChunk (doc.content.getD [])])
              (total + (truncateChunk (doc.content.getD [])).length) := by
          rw [budgetLoop]
          simp [hc, hb]
        have h1' : total + (truncateChunk (doc.content.getD [])).length =
            sumLen (chunks ++ [truncateChunk (doc.content.getD [])]) := by
          rw [sumLen_append, sumLen_singleton, h1]
        have h2' : total + (truncateChunk (doc.content.getD [])).length ≤
            MAX_TOTAL_CONTEXT := Nat.le_of_not_lt hb
        obtain ⟨g1, g2, g3, k, g4⟩ := ih _ _ h1' h2'
        rw [hred]
        refine ⟨g1, g2, g3, k + 1, ?_⟩
        rw [g4, fragsAll_cons_nonempty doc rest hc, List.take_succ_cons,
          List.append_assoc, List.singleton_append]

theorem isEmpty_false_of_ne_nil {α : Type} {l : List α} (h : l ≠ []) :
    l.isEmpty = false := by
  cases l with
  | nil => exact absurd rfl h
  | cons a as => rfl

/-- Starting from the empty state, the budgeting loop always returns a
non-empty fragment list when some accepted state or usable document
exists. -/
theorem budgetLoop_ne_nil (docs : List Document) :
    ∀ (chunks : List Str) (total : Nat),
      (chunks ≠ [] ∨ ∃ doc ∈ docs, doc.content.getD [] ≠ []) →
      (budgetLoop docs chunks total).1 ≠ [] := by
  induction docs with
  | nil =>
    intro chunks total h
    rw [budgetLoop]
    rcases h with h | ⟨doc, hmem, _⟩
    · exact h
    · exact absurd hmem (List.not_mem_nil doc)
  | cons doc rest ih =>
    intro chunks total h
    by_cases hc : (doc.content.getD []).isEmpty
    · have hred : budgetLoop (doc :: rest) chunks total =
          budgetLoop rest chunks total := by
        rw [budgetLoop]
        simp only [hc, if_true]
      rw [hred]
      apply ih
      rcases h with h | ⟨d, hmem, hne⟩
      · exact Or.inl h
      · rcases List.mem_cons.mp hmem with rfl | hmem2
        · exact absurd (List.isEmpty_iff.mp hc) hne
        · exact Or.inr ⟨d, hmem2, hne⟩
    · simp only [Bool.not_eq_true] at hc
      by_cases hb : total + (truncateChunk (doc.content.getD [])).length >
          MAX_TOTAL_CONTEXT
      · by_cases he : chunks.isEmpty
        · have hred : budgetLoop (doc :: rest) chunks total =
              (chunks ++ [(truncateChunk (doc.content.getD [])).take
                  MAX_TOTAL_CONTEXT ++ endMarker], total, true) := by
            rw [budgetLoop]
            simp [hc, hb, he]
          rw [hred]
          simp
        · have he' : chunks.isEmpty = false := by
            simpa using he
          have hred : budgetLoop (doc :: rest) chunks total =
              (chunks, total, false) := by
            rw [budgetLoop]
            simp [hc, hb, he']
          rw [hred]
          simpa using he
      · have hred : budgetLoop (doc :: rest) chunks total =
            budgetLoop rest (chunks ++ [truncateChunk (doc.content.getD [])])
              (total + (truncateChunk (doc.content.getD [])).length) := by
          rw [budgetLoop]
          simp [hc, hb]
        rw [hred]
        exact ih _ _ (Or.inl (by simp))

/-- C1: for every input document list, the combined length of the
fragment list produced by the context-budgeting step of rag_answer (and
of rag_answer_stream, whose budgeting loop is the same code) never
exceeds MAX_TOTAL_CONTEXT = 12000 characters, except in the
single-first-oversized-fragment case (the hard-truncation branch), where
the lone accepted fragment is capped at exactly MAX_TOTAL_CONTEXT plus
the truncation-marker length. -/
theorem c1_total_context_cap (docs : List Document) :
    MAX_TOTAL_CONTEXT = 12000 ∧
    (sumLen (contextChunks docs) ≤ MAX_TOTAL_CONTEXT ∨
      (hardBranchTaken docs = true ∧ (contextChunks docs).length = 1 ∧
        sumLen (contextChunks docs) = MAX_TOTAL_CONTEXT + endMarker.length)) :=
  ⟨rfl, Or.inl (budgetLoop_master docs [] 0 rfl (Nat.zero_le _)).2.2.1⟩

/-- C2: for every non-empty document list in which at least one document
has non-empty content, the context-budgeting step produces at least one
fragment. -/
theorem c2_budgeter_nonempty (docs : List Document) (h1 : docs ≠ [])
    (h2 : ∃ doc ∈ docs, doc.content.getD [] ≠ []) :
    contextChunks docs ≠ [] :=
  budgetLoop_ne_nil docs [] 0 (Or.inr h2)

/-- Witness for C2 at a concrete one-document input. -/
theorem c2_budgeter_nonempty_witness :
    ([(⟨some "abc".toList, none, none, none⟩ : Document)] ≠ []) ∧
    (∃ doc ∈ [(⟨some "abc".toList, none, none, none⟩ : Document)],
      doc.content.getD [] ≠ []) ∧
    contextChunks [(⟨some "abc".toList, none, none, none⟩ : Document)] ≠ [] :=
  ⟨by decide, by decide,
    c2_budgeter_nonempty _ (by decide) (by decide)⟩

/-- Budgeting a single usable document whose candidate fragment fits the
total cap yields exactly that fragment. -/
theorem contextChunks_single (doc : Document)
    (h : (doc.content.getD []).isEmpty = false)
    (hlen : (truncateChunk (doc.content.getD [])).length ≤ MAX_TOTAL_CONTEXT) :
    contextChunks [doc] = [truncateChunk (doc.content.getD [])] := by
  have hb : ¬ (0 + (truncateChunk (doc.content.getD [])).length >
      MAX_TOTAL_CONTEXT) := by
    omega
  have hred : budgetLoop [doc] [] 0 =
      budgetLoop [] ([] ++ [truncateChunk (doc.content.getD [])])
        (0 + (truncateChunk (doc.content.getD [])).length) := by
    conv_lhs => rw [budgetLoop]
    simp [h, hb]
    intro hcon
    exact absurd hcon (by omega)
  rw [contextChunks, hred]
  simp [budgetLoop]

theorem replicate4001_isEmpty_false : (List.replicate 4001 'a').isEmpty = false := by
  rw [show (4001 : Nat) = 4000 + 1 from rfl, List.replicate_succ]
  rfl

theorem replicate4001_length_gt : (List.replicate 4001 'a').length > MAX_CHARS_PER_CHUNK := by
  simp only [List.length_replicate, MAX_CHARS_PER_CHUNK]
  omega

/-- C10 counterexample: a single document of 4001 characters yields one
fragment of length 4024, exceeding the bound of 4022 characters the
claim states: the truncation marker is 24 characters long, not 22. -/
theorem c10_counterexample :
    ¬ (∀ chunk ∈ contextChunks
          [(⟨some (List.replicate 4001 'a'), none, none, none⟩ : Document)],
        chunk.length ≤ 4022) := by
  intro hall
  have hlen : (truncateChunk (List.replicate 4001 'a')).length =
      2000 + midMarker.length + 2000 :=
    truncateChunk_length_eq _ replicate4001_length_gt
  rw [midMarker_length] at hlen
  have hfits : (truncateChunk (List.replicate 4001 'a')).length ≤
      MAX_TOTAL_CONTEXT := by
    rw [hlen]
    simp only [MAX_TOTAL_CONTEXT]
    omega
  have hchunks : contextChunks
      [(⟨some (List.replicate 4001 'a'), none, none, none⟩ : Document)] =
      [truncateChunk (List.replicate 4001 'a')] :=
    contextChunks_single _ replicate4001_isEmpty_false hfits
  have hmem : truncateChunk (List.replicate 4001 'a') ∈ contextChunks
      [(⟨some (List.replicate 4001 'a'), none, none, none⟩ : Document)] := by
    rw [hchunks]
    exact List.mem_singleton_self _
  have := hall _ hmem
  omega

/-- C10 amended: every fragment accepted by the context-budgeting step
has length at most MAX_CHARS_PER_CHUNK plus the truncation-marker
length, which is 4024 characters (not 4022), and the hard-truncation
branch for an oversized first fragment is unreachable for every input
document list. -/
theorem c10_fragment_bound_hard_unreachable (docs : List Document) :
    (∀ chunk ∈ contextChunks docs,
        chunk.length ≤ MAX_CHARS_PER_CHUNK + midMarker.length) ∧
    MAX_CHARS_PER_CHUNK + midMarker.length = 4024 ∧
    hardBranchTaken docs = false := by
  obtain ⟨g1, _, _, k, g4⟩ := budgetLoop_master docs [] 0 rfl (Nat.zero_le _)
  refine ⟨?_, by simp [MAX_CHARS_PER_CHUNK, midMarker_length], g1⟩
  intro chunk hmem
  rw [contextChunks, g4] at hmem
  simp only [List.nil_append] at hmem
  exact fragsAll_length_le docs chunk (List.take_subset k _ hmem)

/-- C3: for every content string longer than MAX_CHARS_PER_CHUNK = 4000
characters, the per-fragment truncation produces exactly the original
first 2000 characters, then the truncation marker, then the original
last 2000 characters, verbatim. -/
theorem c3_truncation_exact (c : Str) (h : c.length > MAX_CHARS_PER_CHUNK) :
    truncateChunk c = c.take 2000 ++ midMarker ++ c.drop (c.length - 2000) ∧
    (truncateChunk c).length = 2000 + midMarker.length + 2000 ∧
    (truncateChunk c).take 2000 = c.take 2000 ∧
    (truncateChunk c).drop ((truncateChunk c).length - 2000) =
      c.drop (c.length - 2000) := by
  have h2000 : 2000 ≤ c.length := by
    simp only [MAX_CHARS_PER_CHUNK] at h
    omega
  have heq : truncateChunk c =
      c.take 2000 ++ midMarker ++ c.drop (c.length - 2000) := by
    rw [truncateChunk, if_pos h]
    norm_num [MAX_CHARS_PER_CHUNK]
  have hlen := truncateChunk_length_eq c h
  have htk : (c.take 2000).length = 2000 := by
    simp only [List.length_take]
    omega
  refine ⟨heq, hlen, ?_, ?_⟩
  · rw [heq, List.append_assoc,
      List.take_append_of_le_length (by rw [htk]),
      List.take_take]
    norm_num
  · rw [hlen, heq]
    have hA : (c.take 2000 ++ midMarker).length = 2000 + midMarker.length := by
      rw [List.length_append, htk]
    have hidx : 2000 + midMarker.length + 2000 - 2000 =
        (c.take 2000 ++ midMarker).length + 0 := by
      rw [hA]
      omega
    rw [hidx, List.drop_append, List.drop_zero]

/-- Witness for C3 at the 10000-character content of the claim. -/
theorem c3_truncation_exact_witness :
    (List.replicate 10000 'a').length > MAX_CHARS_PER_CHUNK ∧
    (truncateChunk (List.replicate 10000 'a') =
        (List.replicate 10000 'a').take 2000 ++ midMarker ++
          (List.replicate 10000 'a').drop ((List.replicate 10000 'a').length - 2000) ∧
      (truncateChunk (List.replicate 10000 'a')).length =
        2000 + midMarker.length + 2000 ∧
      (truncateChunk (List.replicate 10000 'a')).take 2000 =
        (List.replicate 10000 'a').take 2000 ∧
      (truncateChunk (List.replicate 10000 'a')).drop
          ((truncateChunk (List.replicate 10000 'a')).length - 2000) =
        (List.replicate 10000 'a').drop ((List.replicate 10000 'a').length - 2000)) :=
  ⟨by simp only [List.length_replicate, MAX_CHARS_PER_CHUNK]; omega,
    c3_truncation_exact _
      (by simp only [List.length_replicate, MAX_CHARS_PER_CHUNK]; omega)⟩

/-- Reduction of rag_answer on the successful generation path. -/
theorem rag_answer_ok (search_results : List Document)
    (backend : Str → Str → Bool → Except Str (List Str))
    (temperature : Rat) (user_question a : Str) (tr : List Bool)
    (hne : contextChunks search_results ≠ [])
    (hgen : generate_response backend systemPrompt user_question
        (contextChunks search_results) temperature = (.ok a, tr)) :
    rag_answer search_results backend temperature user_question =
      ({ answer := a, sources := search_results.map mkSource }, tr) := by
  have hd : search_results.isEmpty = false := by
    cases search_results with
    | nil => exact absurd rfl hne
    | cons x xs => rfl
  have hce : (contextChunks search_results).isEmpty = false :=
    isEmpty_false_of_ne_nil hne
  rw [rag_answer]
  simp only [hd, Bool.false_eq_true, if_false, hce, hgen]

/-- C8: when the search backend returns an empty document list,
rag_answer returns the fixed no-results answer with empty sources, and
the generation backend is never called (empty call trace). -/
theorem c8_no_results_short_circuit
    (backend : Str → Str → Bool → Except Str (List Str))
    (temperature : Rat) (user_question : Str) :
    (rag_answer [] backend temperature user_question).1.answer = noResultsMsg ∧
    (rag_answer [] backend temperature user_question).1.sources = [] ∧
    (rag_answer [] backend temperature user_question).2 = [] :=
  ⟨rfl, rfl, rfl⟩

/-- C4: the budgeter's output fragments are a prefix of the rank-ordered
candidate fragment list (order matches the input document rank order),
and on the successful path the sources list is the map of the original
search results, hence in the original order regardless of which
fragments were dropped. -/
theorem c4_order_preservation (docs : List Document) :
    (∃ k, contextChunks docs = (fragsAll docs).take k) ∧
    (∀ (backend : Str → Str → Bool → Except Str (List Str)) (temperature : Rat)
        (user_question a : Str) (tr : List Bool),
      contextChunks docs ≠ [] →
      generate_response backend systemPrompt user_question (contextChunks docs)
          temperature = (.ok a, tr) →
      (rag_answer docs backend temperature user_question).1.sources =
        docs.map mkSource) := by
  constructor
  · obtain ⟨_, _, _, k, g4⟩ := budgetLoop_master docs [] 0 rfl (Nat.zero_le _)
    exact ⟨k, by rw [contextChunks, g4, List.nil_append]⟩
  · intro backend temperature user_question a tr hne hgen
    rw [rag_answer_ok docs backend temperature user_question a tr hne hgen]

/-- Witness for C4 at a concrete input. -/
theorem c4_order_preservation_witness :
    contextChunks [docW, docW2] ≠ [] ∧
    generate_response backendOk systemPrompt "q".toList
      (contextChunks [docW, docW2]) 1 = (.ok "ans".toList, [false]) ∧
    (rag_answer [docW, docW2] backendOk 1 "q".toList).1.sources =
      [docW, docW2].map mkSource :=
  ⟨by decide, by decide,
    (c4_order_preservation [docW, docW2]).2 backendOk 1 "q".toList
      "ans".toList [false] (by decide) (by decide)⟩

/-- C5 counterexample: one document was retrieved (content empty), so
the claim requires one sources entry, but rag_answer takes the
no-usable-context path and returns an empty sources list. -/
theorem c5_counterexample :
    ([docWEmpty] : List Document).length = 1 ∧
    (rag_answer [docWEmpty] backendOk 1 "q".toList).1.sources.length = 0 := by
  constructor
  · rfl
  · decide

/-- C5 amended: for every invocation that reaches generation and in
which generation succeeds, the sources of the result are built from the
original, unbudgeted search results — one entry per retrieved document,
each carrying its source name (default Unknown) and score (default 0),
plus its path when present — even when a document's content was excluded
from the prompt for budget reasons. -/
theorem c5_sources_from_original (search_results : List Document)
    (backend : Str → Str → Bool → Except Str (List Str))
    (temperature : Rat) (user_question a : Str) (tr : List Bool)
    (hne : contextChunks search_results ≠ [])
    (hgen : generate_response backend systemPrompt user_question
        (contextChunks search_results) temperature = (.ok a, tr)) :
    (rag_answer search_results backend temperature user_question).1.sources =
      search_results.map mkSource ∧
    (rag_answer search_results backend temperature user_question).1.sources.length =
      search_results.length ∧
    ∀ doc : Document, mkSource doc =
      ⟨doc.source.getD "Unknown".toList, doc.score.getD 0, doc.path⟩ := by
  rw [rag_answer_ok search_results backend temperature user_question a tr hne hgen]
  exact ⟨rfl, by simp, fun doc => rfl⟩

/-- Witness for C5 at a concrete two-document input. -/
theorem c5_sources_from_original_witness :
    contextChunks [docW, docW2] ≠ [] ∧
    generate_response backendOk systemPrompt "p".toList
      (contextChunks [docW, docW2]) 1 = (.ok "ans".toList, [false]) ∧
    (rag_answer [docW, docW2] backendOk 1 "p".toList).1.sources =
      [docW, docW2].map mkSource :=
  ⟨by decide, by decide,
    (c5_sources_from_original [docW, docW2] backendOk 1 "p".toList
      "ans".toList [false] (by decide) (by decide)).1⟩

/-- Reduction of generate_response when the first backend call succeeds. -/
theorem generate_response_ok_red
    (backend : Str → Str → Bool → Except Str (List Str))
    (system_prompt user_message : Str) (context_chunks : List Str)
    (temperature : Rat) (choices : List Str)
    (hb : backend system_prompt (buildUserPrompt user_message context_chunks)
        (includeTemp temperature) = .ok choices) :
    generate_response backend system_prompt user_message context_chunks
        temperature = (.ok (extractAnswer choices), [includeTemp temperature]) := by
  rw [generate_response]
  simp only [hb]

/-- Reduction of generate_response when the first backend call raises an
unsupported-temperature error: the call is retried once without the
parameter and the retried outcome is returned. -/
theorem generate_response_unsupported_red
    (backend : Str → Str → Bool → Except Str (List Str))
    (system_prompt user_message : Str) (context_chunks : List Str)
    (temperature : Rat) (e : Str)
    (hb : backend system_prompt (buildUserPrompt user_message context_chunks)
        (includeTemp temperature) = .error e)
    (ht : tempUnsupported e = true) :
    generate_response backend system_prompt user_message context_chunks
        temperature =
      (match backend system_prompt (buildUserPrompt user_message context_chunks)
          false with
        | .ok choices =>
          (.ok (extractAnswer choices), [includeTemp temperature, false])
        | .error e2 =>
          (.error (classifyError e2), [includeTemp temperature, false])) := by
  rw [generate_response]
  simp only [hb, ht, if_true]

/-- Reduction of generate_response when the first backend call raises
any other error: no retry, the classified error is re-raised. -/
theorem generate_response_other_red
    (backend : Str → Str → Bool → Except Str (List Str))
    (system_prompt user_message : Str) (context_chunks : List Str)
    (temperature : Rat) (e : Str)
    (hb : backend system_prompt (buildUserPrompt user_message context_chunks)
        (includeTemp temperature) = .error e)
    (ht : tempUnsupported e = false) :
    generate_response backend system_prompt user_message context_chunks
        temperature = (.error (classifyError e), [includeTemp temperature]) := by
  rw [generate_response]
  simp only [hb, ht, Bool.false_eq_true, if_false]

/-- Reduction of generate_response_stream when create delivers a stream. -/
theorem generate_response_stream_delivered_red
    (backendStream : Str → Str → Bool → StreamOutcome)
    (system_prompt user_message : Str) (context_chunks : List Str)
    (temperature : Rat) (cs : List RawChunk) (err : Option Str)
    (hb : backendStream system_prompt
        (buildUserPrompt user_message context_chunks)
        (includeTemp temperature) = .delivered cs err) :
    generate_response_stream backendStream system_prompt user_message
        context_chunks temperature =
      (streamYields cs ++ streamTail err, [includeTemp temperature]) := by
  rw [generate_response_stream]
  simp only [hb]

/-- Reduction of generate_response_stream when create raises an
unsupported-temperature error: retried once without the parameter. -/
theorem generate_response_stream_unsupported_red
    (backendStream : Str → Str → Bool → StreamOutcome)
    (system_prompt user_message : Str) (context_chunks : List Str)
    (temperature : Rat) (e : Str)
    (hb : backendStream system_prompt
        (buildUserPrompt user_message context_chunks)
        (includeTemp temperature) = .fail e)
    (ht : tempUnsupported e = true) :
    generate_response_stream backendStream system_prompt user_message
        context_chunks temperature =
      (match backendStream system_prompt
          (buildUserPrompt user_message context_chunks) false with
        | .fail e2 => ([streamErrChunk e2], [includeTemp temperature, false])
        | .delivered cs err =>
          (streamYields cs ++ streamTail err, [includeTemp temperature, false])) := by
  rw [generate_response_stream]
  simp only [hb, ht, if_true]

/-- Reduction of generate_response_stream when create raises any other
error: no retry, a single diagnostic chunk is yielded. -/
theorem generate_response_stream_other_red
    (backendStream : Str → Str → Bool → StreamOutcome)
    (system_prompt user_message : Str) (context_chunks : List Str)
    (temperature : Rat) (e : Str)
    (hb : backendStream system_prompt
        (buildUserPrompt user_message context_chunks)
        (includeTemp temperature) = .fail e)
    (ht : tempUnsupported e = false) :
    generate_response_stream backendStream system_prompt user_message
        context_chunks temperature =
      ([streamErrChunk e], [includeTemp temperature]) := by
  rw [generate_response_stream]
  simp only [hb, ht, Bool.false_eq_true, if_false]

/-- C7: in both blocking and streaming modes the temperature parameter
is included in the first backend call iff its value differs from 1.0; a
first-call rejection whose text names temperature as unsupported is
retried exactly once with the parameter removed and the retried outcome
is returned; any other first-call error is not retried. -/
theorem c7_temperature_policy
    (backend : Str → Str → Bool → Except Str (List Str))
    (backendStream : Str → Str → Bool → StreamOutcome)
    (system_prompt user_message : Str) (context_chunks : List Str)
    (temperature : Rat) :
    ((generate_response backend system_prompt user_message context_chunks
        temperature).2.head? = some (includeTemp temperature) ∧
      (generate_response_stream backendStream system_prompt user_message
        context_chunks temperature).2.head? = some (includeTemp temperature) ∧
      (includeTemp temperature = true ↔ temperature ≠ 1)) ∧
    (∀ e : Str,
      backend system_prompt (buildUserPrompt user_message context_chunks)
          (includeTemp temperature) = .error e →
      tempUnsupported e = true →
      generate_response backend system_prompt user_message context_chunks
          temperature =
        (match backend system_prompt
            (buildUserPrompt user_message context_chunks) false with
          | .ok choices =>
            (.ok (extractAnswer choices), [includeTemp temperature, false])
          | .error e2 =>
            (.error (classifyError e2), [includeTemp temperature, false]))) ∧
    (∀ e : Str,
      backend system_prompt (buildUserPrompt user_message context_chunks)
          (includeTemp temperature) = .error e →
      tempUnsupported e = false →
      generate_response backend system_prompt user_message context_chunks
          temperature =
        (.error (classifyError e), [includeTemp temperature])) ∧
    (∀ e : Str,
      backendStream system_prompt (buildUserPrompt user_message context_chunks)
          (includeTemp temperature) = .fail e →
      tempUnsupported e = true →
      generate_response_stream backendStream system_prompt user_message
          context_chunks temperature =
        (match backendStream system_prompt
            (buildUserPrompt user_message context_chunks) false with
          | .fail e2 => ([streamErrChunk e2], [includeTemp temperature, false])
          | .delivered cs err =>
            (streamYields cs ++ streamTail err,
              [includeTemp temperature, false]))) ∧
    (∀ e : Str,
      backendStream system_prompt (buildUserPrompt user_message context_chunks)
          (includeTemp temperature) = .fail e →
      tempUnsupported e = false →
      generate_response_stream backendStream system_prompt user_message
          context_chunks temperature =
        ([streamErrChunk e], [includeTemp temperature])) := by
  refine ⟨⟨?_, ?_, by simp [includeTemp]⟩, ?_, ?_, ?_, ?_⟩
  · cases hb : backend system_prompt
        (buildUserPrompt user_message context_chunks)
        (includeTemp temperature) with
    | error e =>
      by_cases ht : tempUnsupported e
      · rw [generate_response_unsupported_red backend system_prompt
          user_message context_chunks temperature e hb ht]
        cases backend system_prompt
            (buildUserPrompt user_message context_chunks) false with
        | error e2 => rfl
        | ok choices2 => rfl
      · rw [generate_response_other_red backend system_prompt user_message
          context_chunks temperature e hb (by simpa using ht)]
        rfl
    | ok choices =>
      rw [generate_response_ok_red backend system_prompt user_message
        context_chunks temperature choices hb]
      rfl
  · cases hb : backendStream system_prompt
        (buildUserPrompt user_message context_chunks)
        (includeTemp temperature) with
    | fail e =>
      by_cases ht : tempUnsupported e
      · rw [generate_response_stream_unsupported_red backendStream
          system_prompt user_message context_chunks temperature e hb ht]
        cases backendStream system_prompt
            (buildUserPrompt user_message context_chunks) false with
        | fail e2 => rfl
        | delivered cs2 err2 => rfl
      · rw [generate_response_stream_other_red backendStream system_prompt
          user_message context_chunks temperature e hb (by simpa using ht)]
        rfl
    | delivered cs err =>
      rw [generate_response_stream_delivered_red backendStream system_prompt
        user_message context_chunks temperature cs err hb]
      rfl
  · intro e hb ht
    exact generate_response_unsupported_red backend system_prompt
      user_message context_chunks temperature e hb ht
  · intro e hb ht
    exact generate_response_other_red backend system_prompt user_message
      context_chunks temperature e hb ht
  · intro e hb ht
    exact generate_response_stream_unsupported_red backendStream
      system_prompt user_message context_chunks temperature e hb ht
  · intro e hb ht
    exact generate_response_stream_other_red backendStream system_prompt
      user_message context_chunks temperature e hb ht

/-- Witness for C7: backends (blocking and streaming) that reject the
temperature parameter on the first call and succeed without it;
temperature 0 differs from 1.0, so the parameter is included first and
then removed on the single retry in both modes. -/
theorem c7_temperature_policy_witness :
    backendW7 systemPrompt (buildUserPrompt "q".toList ["ctx".toList])
        (includeTemp 0) = .error errTempMsg ∧
    streamW7 systemPrompt (buildUserPrompt "q".toList ["ctx".toList])
        (includeTemp 0) = .fail errTempMsg ∧
    tempUnsupported errTempMsg = true ∧
    generate_response backendW7 systemPrompt "q".toList ["ctx".toList] 0 =
      (.ok "hi".toList, [true, false]) ∧
    generate_response_stream streamW7 systemPrompt "q".toList
      ["ctx".toList] 0 = (["hi".toList], [true, false]) := by
  refine ⟨by decide, by decide, by decide, ?_, ?_⟩
  · have h := (c7_temperature_policy backendW7 streamW7 systemPrompt
      "q".toList ["ctx".toList] 0).2.1 errTempMsg (by decide) (by decide)
    rw [h]
    decide
  · have h := (c7_temperature_policy backendW7 streamW7 systemPrompt
      "q".toList ["ctx".toList] 0).2.2.2.1 errTempMsg (by decide) (by decide)
    rw [h]
    decide

/-- Reduction of rag_answer when generation raises: the caught message
is classified into the rate-limit or the generic error answer, with
empty sources. -/
theorem rag_answer_err_red (search_results : List Document)
    (backend : Str → Str → Bool → Except Str (List Str))
    (temperature : Rat) (user_question msg : Str) (tr : List Bool)
    (hne : contextChunks search_results ≠ [])
    (hgen : generate_response backend systemPrompt user_question
        (contextChunks search_results) temperature = (.error msg, tr)) :
    rag_answer search_results backend temperature user_question =
      if isRateLimitMsg msg then
        ({ answer := rateLimitAnswer msg, sources := [] }, tr)
      else ({ answer := genericErrorAnswer msg, sources := [] }, tr) := by
  have hd : search_results.isEmpty = false := by
    cases search_results with
    | nil => exact absurd rfl hne
    | cons x xs => rfl
  have hce : (contextChunks search_results).isEmpty = false :=
    isEmpty_false_of_ne_nil hne
  rw [rag_answer]
  simp only [hd, Bool.false_eq_true, if_false, hce, hgen]

/-- Reduction of rag_answer_stream past search and budgeting: the
yielded chunks come from generate_response_stream and the sources are
built from the original search results. -/
theorem rag_answer_stream_red (search_results : List Document)
    (backendStream : Str → Str → Bool → StreamOutcome)
    (temperature : Rat) (user_question : Str)
    (hne : contextChunks search_results ≠ []) :
    rag_answer_stream search_results backendStream temperature user_question =
      ((generate_response_stream backendStream systemPrompt user_question
          (contextChunks search_results) temperature).1,
        search_results.map mkSource) := by
  have hd : search_results.isEmpty = false := by
    cases search_results with
    | nil => exact absurd rfl hne
    | cons x xs => rfl
  have hce : (contextChunks search_results).isEmpty = false :=
    isEmpty_false_of_ne_nil hne
  rw [rag_answer_stream]
  simp only [hd, Bool.false_eq_true, if_false, hce]

/-- C6 counterexample: with one retrieved document and a streaming
backend that raises a 429 error at create time, the stream's final (and
only) chunk is the rate-limit diagnostic, but the sources of the
returned dict are built from the original search results and are NOT
empty, contradicting the sources part of the claim for streaming mode. -/
theorem c6_counterexample :
    (rag_answer_stream [docW] stream429 1 "q".toList).1.getLast? =
      some (streamErrChunk "429".toList) ∧
    (rag_answer_stream [docW] stream429 1 "q".toList).2 =
      [{ source := "m.pdf".toList, score := 2, path := some "p1".toList }] ∧
    (rag_answer_stream [docW] stream429 1 "q".toList).2 ≠ [] :=
  ⟨by decide, by decide, by decide⟩

/-- C6 amended: when the generation backend raises an error containing
"429", blocking mode returns an answer containing the rate-limit
guidance phrase with empty sources; streaming mode delivers the
rate-limit diagnostic (containing the same guidance) as its only chunk,
but its returned sources are built from the original search results
(non-empty whenever documents were retrieved), not the empty list the
claim states. -/
theorem c6_rate_limit (e : Str) (he : hasSubstr "429".toList e = true)
    (search_results : List Document) (hne : contextChunks search_results ≠ [])
    (backend : Str → Str → Bool → Except Str (List Str))
    (hb : ∀ sp p w, backend sp p w = .error e)
    (backendStream : Str → Str → Bool → StreamOutcome)
    (hbs : ∀ sp p w, backendStream sp p w = .fail e)
    (temperature : Rat) (user_question : Str) :
    hasSubstr guidancePhrase
      (rag_answer search_results backend temperature user_question).1.answer =
      true ∧
    (rag_answer search_results backend temperature user_question).1.sources =
      [] ∧
    (rag_answer_stream search_results backendStream temperature
        user_question).1 = [streamErrChunk e] ∧
    hasSubstr guidancePhrase (streamErrChunk e) = true ∧
    (rag_answer_stream search_results backendStream temperature
        user_question).2 = search_results.map mkSource := by
  have h429 : is429 e = true := by
    simp only [is429, Bool.or_eq_true]
    exact Or.inl (Or.inl he)
  have hclass : classifyError e = rateLimitRaiseMsg := by
    simp [classifyError, h429]
  have hchunk : streamErrChunk e =
      "\n\n⚠️ **Límite de tasa alcanzado**: Has excedido el límite de tokens por minuto. Espera 60 segundos antes de intentar de nuevo.".toList := by
    simp [streamErrChunk, h429]
  have hgen : ∃ tr, generate_response backend systemPrompt user_question
      (contextChunks search_results) temperature =
      (.error rateLimitRaiseMsg, tr) := by
    by_cases ht : tempUnsupported e
    · refine ⟨[includeTemp temperature, false], ?_⟩
      rw [generate_response_unsupported_red backend systemPrompt user_question
        (contextChunks search_results) temperature e (hb _ _ _) ht]
      simp only [hb, hclass]
    · refine ⟨[includeTemp temperature], ?_⟩
      rw [generate_response_other_red backend systemPrompt user_question
        (contextChunks search_results) temperature e (hb _ _ _)
          (by simpa using ht), hclass]
  obtain ⟨tr, hgen⟩ := hgen
  have hrl : isRateLimitMsg rateLimitRaiseMsg = true := by decide
  have hred := rag_answer_err_red search_results backend temperature
    user_question rateLimitRaiseMsg tr hne hgen
  rw [hrl] at hred
  simp only [eq_self_iff_true, if_true] at hred
  have hgens : (generate_response_stream backendStream systemPrompt
      user_question (contextChunks search_results) temperature).1 =
      [streamErrChunk e] := by
    by_cases ht : tempUnsupported e
    · rw [generate_response_stream_unsupported_red backendStream systemPrompt
        user_question (contextChunks search_results) temperature e
        (hbs _ _ _) ht]
      simp only [hbs]
    · rw [generate_response_stream_other_red backendStream systemPrompt
        user_question (contextChunks search_results) temperature e
        (hbs _ _ _) (by simpa using ht)]
  have hsred := rag_answer_stream_red search_results backendStream
    temperature user_question hne
  refine ⟨?_, ?_, ?_, ?_, ?_⟩
  · rw [hred]
    show hasSubstr guidancePhrase (rateLimitAnswer rateLimitRaiseMsg) = true
    decide
  · rw [hred]
  · rw [hsred]
    exact hgens
  · rw [hchunk]
    decide
  · rw [hsred]

/-- Witness for C6 at a concrete one-document input with a backend that
always raises "429". -/
theorem c6_rate_limit_witness :
    hasSubstr "429".toList "429".toList = true ∧
    contextChunks [docW] ≠ [] ∧
    hasSubstr guidancePhrase
      (rag_answer [docW] backend429 1 "q".toList).1.answer = true ∧
    (rag_answer [docW] backend429 1 "q".toList).1.sources = [] ∧
    (rag_answer_stream [docW] stream429 1 "q".toList).1 =
      [streamErrChunk "429".toList] ∧
    hasSubstr guidancePhrase (streamErrChunk "429".toList) = true ∧
    (rag_answer_stream [docW] stream429 1 "q".toList).2 =
      [docW].map mkSource := by
  have h := c6_rate_limit "429".toList (by decide) [docW] (by decide)
    backend429 (fun _ _ _ => rfl) stream429 (fun _ _ _ => rfl) 1 "q".toList
  exact ⟨by decide, by decide, h.1, h.2.1, h.2.2.1, h.2.2.2.1, h.2.2.2.2⟩

/-- C9 counterexample: the backend's deterministic output is the text
" hi " (delivered as one choice in blocking mode and as one chunk in
streaming mode). Blocking mode strips it to "hi", while concatenating
the streamed chunks yields " hi " verbatim, so the two modes are not
identical; at pipeline level rag_answer answers "hi" while
rag_answer_stream reconstructs " hi ". -/
theorem c9_counterexample :
    (generate_response backendWS systemPrompt "q".toList ["ctx".toList] 1).1 =
      .ok "hi".toList ∧
    (generate_response_stream streamWS systemPrompt "q".toList
      ["ctx".toList] 1).1.flatten = " hi ".toList ∧
    (rag_answer [docW] backendWS 1 "q".toList).1.answer = "hi".toList ∧
    (rag_answer_stream [docW] streamWS 1 "q".toList).1.flatten =
      " hi ".toList ∧
    (" hi ".toList : Str) ≠ "hi".toList :=
  ⟨by decide, by decide, by decide, by decide, by decide⟩

/-- C9 amended: provided the backend's deterministic full text is
already stripped (equal to its own strip) and is delivered as a
non-empty choice list in blocking mode and as chunks concatenating to
the same text in streaming mode, consuming the full chunk sequence and
concatenating yields text identical to the blocking answer, both at the
gateway level and at the pipeline level. -/
theorem c9_stream_blocking_equiv (T : Str) (hT : pyStrip T = T)
    (cs : List RawChunk) (hcs : (streamYields cs).flatten = T)
    (search_results : List Document) (hne : contextChunks search_results ≠ [])
    (temperature : Rat) (user_question : Str) :
    (generate_response (fun _ _ _ => .ok [T]) systemPrompt user_question
        (contextChunks search_results) temperature).1 = .ok T ∧
    (generate_response_stream (fun _ _ _ => .delivered cs none) systemPrompt
        user_question (contextChunks search_results) temperature).1.flatten =
      T ∧
    (rag_answer search_results (fun _ _ _ => .ok [T]) temperature
        user_question).1.answer =
      (rag_answer_stream search_results (fun _ _ _ => .delivered cs none)
        temperature user_question).1.flatten := by
  have hex : extractAnswer [T] = T := hT
  have hgen := generate_response_ok_red (fun _ _ _ => .ok [T]) systemPrompt
    user_question (contextChunks search_results) temperature [T] rfl
  rw [hex] at hgen
  have hstream := generate_response_stream_delivered_red
    (fun _ _ _ => .delivered cs none) systemPrompt user_question
    (contextChunks search_results) temperature cs none rfl
  have hstream1 : (generate_response_stream (fun _ _ _ => .delivered cs none)
      systemPrompt user_question (contextChunks search_results)
      temperature).1.flatten = T := by
    rw [hstream]
    show ((streamYields cs ++ streamTail none).flatten : Str) = T
    rw [streamTail, List.append_nil, hcs]
  refine ⟨by rw [hgen], hstream1, ?_⟩
  rw [rag_answer_ok search_results (fun _ _ _ => .ok [T]) temperature
    user_question T [includeTemp temperature] hne hgen]
  rw [rag_answer_stream_red search_results (fun _ _ _ => .delivered cs none)
    temperature user_question hne]
  exact hstream1.symm

/-- Witness for C9 at a concrete two-chunk stream reassembling the
blocking answer "hola". -/
theorem c9_stream_blocking_equiv_witness :
    pyStrip "hola".toList = "hola".toList ∧
    (streamYields [[some (some "ho".toList)],
      [some (some "la".toList)]]).flatten = "hola".toList ∧
    contextChunks [docW] ≠ [] ∧
    (rag_answer [docW] (fun _ _ _ => .ok ["hola".toList]) 1
        "q".toList).1.answer =
      (rag_answer_stream [docW]
        (fun _ _ _ => .delivered [[some (some "ho".toList)],
          [some (some "la".toList)]] none) 1 "q".toList).1.flatten :=
  ⟨by decide, by decide, by decide,
    (c9_stream_blocking_equiv "hola".toList (by decide)
      [[some (some "ho".toList)], [some (some "la".toList)]] (by decide)
      [docW] (by decide) 1 "q".toList).2.2⟩
